import Mathlib

/-!
Verification development for the pdf-api repository: a shallow embedding of
the metered API-key authorization gate, usage recorder, subscription and
billing-webhook logic of the two server variants, together with theorems
settling the frozen claims about them.

Variants embedded:
* `Direct` — the direct Stripe-billing server (`src/unnamed/part_000`, two
  identical copies separated by a document marker).
* `Rapid` — the RapidAPI marketplace server (`src/server.js`).

Machine conventions: the SQLite `customers` table is a `List Customer`
(`api_key` carries a UNIQUE constraint in both schemas), the `api_usage`
table is a `List UsageEvent`, a JavaScript `Date` is reduced to the only
two projections the code reads (`getMonth`, `getFullYear`) plus nothing
else, and JavaScript string truthiness (`''` is falsy) is modelled
explicitly on `Option String` header values.
-/

namespace PdfApi

/-- Calendar instant as the code observes it: the JS code only ever calls
`getMonth()` and `getFullYear()` on dates, and stores `now.toISOString()`
back; we keep the two projections. -/
structure JsDate where
  month : Nat
  year : Nat
  deriving DecidableEq

/-- Row of the `customers` table. Union of the two variants' schemas:
`source` and `rapidapi_user_id` exist only in the marketplace schema
(`src/server.js` lines 31-43), `stripe_customer_id` and
`stripe_subscription_id` only in the direct-billing schema
(`src/unnamed/part_000` lines 39-51); the columns a variant lacks are
inert (`none` / `""`) in that variant's operations. -/
structure Customer where
  api_key : String
  email : String
  plan : String
  monthly_limit : Nat
  current_usage : Nat
  last_reset : JsDate
  status : String
  source : String
  rapidapi_user_id : Option String
  stripe_customer_id : Option String
  stripe_subscription_id : Option String
  deriving DecidableEq

/-- Row of the `api_usage` table. `user_agent` / `ip_address` exist only in
the marketplace schema; the direct variant inserts rows without them. -/
structure UsageEvent where
  api_key : String
  endpoint : String
  success : Bool
  file_size : Nat
  user_agent : Option String
  ip_address : Option String
  deriving DecidableEq

/-- The two mutable tables of `customers.db`. -/
structure AppState where
  customers : List Customer
  api_usage : List UsageEvent
  deriving DecidableEq

/-- JS truthiness of a possibly-absent header/query string: absent and
`''` are falsy. -/
def jsTruthy : Option String → Bool
  | none => false
  | some s => !(s == "")

/-- JS `a || b` on possibly-absent strings. -/
def jsOr (a b : Option String) : Option String :=
  if jsTruthy a then a else b

/-- JS `a || d` with a string default (`req.headers[...] || 'anonymous'`). -/
def jsOrStr (a : Option String) (d : String) : String :=
  if jsTruthy a then a.getD "" else d

/-- JS `s.includes(sub)`: some drop of `s` starts with `sub`. -/
def jsIncludes (s sub : String) : Bool :=
  (List.range (s.length + 1)).any fun i => sub.data == (s.data.drop i).take sub.length

/-- JS `key.slice(-8)`: the trailing 8 characters (the whole string when
shorter than 8, as JS clamps the negative start index to 0). -/
def sliceLast8 (s : String) : String :=
  String.mk (s.data.drop (s.data.length - 8))

/-- Condition of the monthly-rollover `if` shared verbatim by every
authentication path:
`now.getMonth() !== lastReset.getMonth() || now.getFullYear() !== lastReset.getFullYear()`. -/
def needsReset (now : JsDate) (c : Customer) : Bool :=
  now.month != c.last_reset.month || now.year != c.last_reset.year

/-- Effect of
`UPDATE customers SET current_usage = 0, last_reset = ? WHERE api_key = ?`. -/
def resetUsageUpdate (store : List Customer) (k : String) (now : JsDate) :
    List Customer :=
  store.map fun c =>
    if c.api_key == k then { c with current_usage := 0, last_reset := now } else c

/-- The "Reset monthly usage if needed" block appearing verbatim in every
authentication path (`part_000` lines 115-122, `server.js` lines 131-139
and 170-177): when month or year of `now` differs from `last_reset`, run
the SQL reset and zero the in-memory row's `current_usage` (the in-memory
copy's `last_reset` is not touched by the JS code). Returns the updated
store and the in-memory customer handed downstream. -/
def rolloverStep (store : List Customer) (k : String) (customer : Customer)
    (now : JsDate) : List Customer × Customer :=
  if needsReset now customer then
    (resetUsageUpdate store k now, { customer with current_usage := 0 })
  else
    (store, customer)

/-- Sum of `current_usage` over the rows holding a given key (with the
schema's UNIQUE constraint on `api_key`, the row's usage). -/
def usageOf (k : String) (store : List Customer) : Nat :=
  ((store.filter fun c => c.api_key == k).map Customer.current_usage).sum

/-- Number of rows holding a given key. -/
def countKey (k : String) (store : List Customer) : Nat :=
  store.countP fun c => c.api_key == k

namespace Direct

/-- Outcome of the direct-billing variant's `authenticateAPI`
(`part_000` lines 96-138): the 401 missing-key and invalid-key responses,
the 429 quota response (which reports usage, limit and plan), or success
(`req.customer` set, `next()` called). There is no suspended-specific
outcome in the code. -/
inductive AuthOutcome where
  | missingKey
  | invalidKey
  | quotaExceeded (currentUsage monthlyLimit : Nat) (plan : String)
  | ok (customer : Customer)
  deriving DecidableEq

/-- Embeds `authenticateAPI` of `part_000` (lines 96-138):
`const apiKey = req.headers['x-api-key'] || req.query.api_key`; 401 when
falsy; lookup `SELECT * FROM customers WHERE api_key = ? AND status =
"active"` (first matching row); monthly rollover; then
`if (customer.plan !== 'enterprise' && customer.current_usage >=
customer.monthly_limit)` 429, else success. Returns the possibly-updated
store with the outcome. -/
def authenticateAPI (store : List Customer) (headerKey queryKey : Option String)
    (now : JsDate) : List Customer × AuthOutcome :=
  let apiKey := jsOr headerKey queryKey
  if !(jsTruthy apiKey) then
    (store, .missingKey)
  else
    let k := apiKey.getD ""
    match store.find? (fun c => c.api_key == k && c.status == "active") with
    | none => (store, .invalidKey)
    | some customer =>
      let rolled := rolloverStep store k customer now
      let customer1 := rolled.2
      if customer1.plan ≠ "enterprise" ∧ customer1.monthly_limit ≤ customer1.current_usage then
        (rolled.1, .quotaExceeded customer1.current_usage customer1.monthly_limit customer1.plan)
      else
        (rolled.1, .ok customer1)

/-- Embeds `trackUsage` of `part_000` (lines 141-153):
`UPDATE customers SET current_usage = current_usage + 1 WHERE api_key = ?`
then `INSERT INTO api_usage (api_key, endpoint, success, file_size)`.
The JS defaults `success = true`, `fileSize = 0` are supplied explicitly
at the registration defs below, as every call site in the source omits
them. -/
def trackUsage (endpoint : String) (success : Bool) (fileSize : Nat)
    (customerKey : String) (st : AppState) : AppState :=
  { customers := st.customers.map fun c =>
      if c.api_key == customerKey then
        { c with current_usage := c.current_usage + 1 }
      else c
    api_usage := st.api_usage ++
      [{ api_key := customerKey, endpoint := endpoint, success := success,
         file_size := fileSize, user_agent := none, ip_address := none }] }

/-- The middleware instance registered on `POST /api/generate/text`
(`part_000` line 672): `trackUsage('generate/text')`, defaults applied. -/
def trackGenerateText : String → AppState → AppState :=
  trackUsage "generate/text" true 0

/-- The middleware instance registered on `POST /api/generate/structured`
(`part_000` line 722): `trackUsage('generate/structured')`, defaults
applied. -/
def trackGenerateStructured : String → AppState → AppState :=
  trackUsage "generate/structured" true 0

/-- Entry of the `PLANS` catalog (`part_000` lines 20-24). -/
structure Plan where
  price : Nat
  limit : Nat
  name : String
  deriving DecidableEq

/-- The `PLANS` catalog of `part_000` lines 20-24; `none` for an unknown
plan id (`!PLANS[plan]`). -/
def PLANS (p : String) : Option Plan :=
  if p = "basic" then some { price := 900, limit := 1000, name := "Basic" }
  else if p = "pro" then some { price := 2900, limit := 10000, name := "Pro" }
  else if p = "enterprise" then some { price := 9900, limit := 999999, name := "Enterprise" }
  else none

/-- Outcome of `POST /api/subscribe` (`part_000` lines 165-232). -/
inductive SubscribeOutcome where
  | invalidPlan
  | duplicateEmail
  | created (apiKey : String)
  deriving DecidableEq

/-- Embeds `POST /api/subscribe` (`part_000` lines 165-232): reject an
unknown plan; `SELECT * FROM customers WHERE email = ?` and reject with
`Email already registered` when any row matches (the query does not
filter on status); otherwise create the Stripe customer and subscription
(their ids and the generated `uuidv4()` enter as parameters, being data
produced by the external SDK) and insert the new row with
`api_key = 'live-' + uuid`, the plan's snapshotted limit, and the schema
defaults `current_usage = 0`, `last_reset = CURRENT_TIMESTAMP`,
`status = 'active'`. -/
def subscribe (store : List Customer) (email plan : String)
    (stripeCustomerId stripeSubscriptionId uuid : String) (now : JsDate) :
    List Customer × SubscribeOutcome :=
  match PLANS plan with
  | none => (store, .invalidPlan)
  | some pl =>
    match store.find? (fun c => c.email == email) with
    | some _ => (store, .duplicateEmail)
    | none =>
      let apiKey := "live-" ++ uuid
      let newCustomer : Customer :=
        { api_key := apiKey, email := email, plan := plan,
          monthly_limit := pl.limit, current_usage := 0, last_reset := now,
          status := "active", source := "", rapidapi_user_id := none,
          stripe_customer_id := some stripeCustomerId,
          stripe_subscription_id := some stripeSubscriptionId }
      (store ++ [newCustomer], .created apiKey)

/-- Parsed body of a Stripe webhook request: the code reads `event.type`
and `event.data.object.subscription` (the latter possibly absent). -/
structure WebhookEvent where
  type : String
  subscription : Option String
  deriving DecidableEq

/-- Effect of the `invoice.payment_failed` branch (`part_000` line 250):
`UPDATE customers SET status = "suspended" WHERE stripe_subscription_id = ?`.
An absent subscription binds SQL NULL, which `=` never matches. -/
def onPaymentFailed (sub : Option String) (store : List Customer) :
    List Customer :=
  store.map fun c =>
    if sub.isSome && c.stripe_subscription_id == sub then
      { c with status := "suspended" }
    else c

/-- Effect of the `invoice.payment_succeeded` branch (`part_000` line 254):
`UPDATE customers SET status = "active", current_usage = 0 WHERE
stripe_subscription_id = ?`. -/
def onPaymentSucceeded (sub : Option String) (store : List Customer) :
    List Customer :=
  store.map fun c =>
    if sub.isSome && c.stripe_subscription_id == sub then
      { c with status := "active", current_usage := 0 }
    else c

/-- Response of `POST /api/stripe-webhook`. -/
inductive WebhookOutcome where
  | badRequest
  | received
  deriving DecidableEq

/-- Embeds `POST /api/stripe-webhook` (`part_000` lines 235-258). The
`stripe-signature` header is read into `sig` and never used ("we'll skip
signature verification for testing"); `body` is the `JSON.parse` result
(`none` when parsing throws, giving the 400 response). -/
def stripeWebhook (sig : Option String) (body : Option WebhookEvent)
    (store : List Customer) : List Customer × WebhookOutcome :=
  match body with
  | none => (store, .badRequest)
  | some event =>
    if event.type = "invoice.payment_failed" then
      (onPaymentFailed event.subscription store, .received)
    else if event.type = "invoice.payment_succeeded" then
      (onPaymentSucceeded event.subscription store, .received)
    else
      (store, .received)

end Direct

namespace Rapid

/-- Credential-bearing parts of an inbound request to the marketplace
variant (`server.js` lines 91-93, 150): the three `x-rapidapi-*` headers,
the `x-api-key` header and the `api_key` query parameter. -/
structure RapidHeaders where
  rapidKey : Option String
  rapidHost : Option String
  rapidUser : Option String
  headerKey : Option String
  queryKey : Option String
  deriving DecidableEq

/-- Outcome of the marketplace variant's `authenticateAPI` (`server.js`
lines 89-193). `ok` carries `req.customer` and the `req.isRapidAPI` flag. -/
inductive AuthOutcome where
  | missingKey
  | invalidKey
  | quotaExceeded (currentUsage monthlyLimit : Nat)
  | ok (customer : Customer) (isRapidAPI : Bool)
  deriving DecidableEq

/-- The deterministic derived key of a marketplace caller
(`server.js` line 97):
`rapidapi-` + user + `-` + `rapidAPIKey.slice(-8)`. -/
def customerKeyOf (user key : String) : String :=
  "rapidapi-" ++ user ++ "-" ++ sliceLast8 key

/-- Embeds `authenticateAPI` of `server.js` (lines 89-193). Marketplace
branch: when `rapidAPIKey && rapidAPIHost &&
rapidAPIHost.includes('rapidapi.com')`, look the derived key up with
`SELECT * FROM customers WHERE api_key = ?` (no status filter); if absent,
INSERT a fresh row (plan `rapidapi`, limit 10000, usage 0, schema defaults
`status = 'active'`, `last_reset = CURRENT_TIMESTAMP`) and pass it on with
no further checks; if present, run the monthly rollover and pass the row
on — this branch performs no quota and no status check. Demo branch:
`x-api-key` header or `api_key` query parameter, 401 when falsy, lookup
filtered on `status = "active"`, rollover, then 429 when
`current_usage >= monthly_limit` (no plan is exempt in this variant). -/
def authenticateAPI (store : List Customer) (req : RapidHeaders)
    (now : JsDate) : List Customer × AuthOutcome :=
  let rapidAPIUser := jsOrStr req.rapidUser "anonymous"
  if jsTruthy req.rapidKey && jsTruthy req.rapidHost &&
      jsIncludes (req.rapidHost.getD "") "rapidapi.com" then
    let customerKey := customerKeyOf rapidAPIUser (req.rapidKey.getD "")
    match store.find? (fun c => c.api_key == customerKey) with
    | none =>
      let newCustomer : Customer :=
        { api_key := customerKey, email := rapidAPIUser ++ "@rapidapi.customer",
          plan := "rapidapi", monthly_limit := 10000, current_usage := 0,
          last_reset := now, status := "active", source := "rapidapi",
          rapidapi_user_id := some rapidAPIUser, stripe_customer_id := none,
          stripe_subscription_id := none }
      (store ++ [newCustomer], .ok newCustomer true)
    | some customer =>
      let rolled := rolloverStep store customerKey customer now
      (rolled.1, .ok rolled.2 true)
  else
    let apiKey := jsOr req.headerKey req.queryKey
    if !(jsTruthy apiKey) then
      (store, .missingKey)
    else
      let k := apiKey.getD ""
      match store.find? (fun c => c.api_key == k && c.status == "active") with
      | none => (store, .invalidKey)
      | some customer =>
        let rolled := rolloverStep store k customer now
        let customer1 := rolled.2
        if customer1.monthly_limit ≤ customer1.current_usage then
          (rolled.1, .quotaExceeded customer1.current_usage customer1.monthly_limit)
        else
          (rolled.1, .ok customer1 false)

/-- Embeds `trackUsage` of `server.js` (lines 196-212): same counter
update and ledger insert as the direct variant, additionally recording
`req.headers['user-agent'] || 'Unknown'` and the request address
(`req.ip || req.connection.remoteAddress || 'Unknown'`, collapsed to one
optional input). Defaults `success = true`, `fileSize = 0` are applied at
the registration defs, as in the source. -/
def trackUsage (endpoint : String) (success : Bool) (fileSize : Nat)
    (userAgent ipAddress : Option String) (customerKey : String)
    (st : AppState) : AppState :=
  { customers := st.customers.map fun c =>
      if c.api_key == customerKey then
        { c with current_usage := c.current_usage + 1 }
      else c
    api_usage := st.api_usage ++
      [{ api_key := customerKey, endpoint := endpoint, success := success,
         file_size := fileSize, user_agent := some (jsOrStr userAgent "Unknown"),
         ip_address := some (jsOrStr ipAddress "Unknown") }] }

/-- The middleware instance registered on `POST /api/generate/text`
(`server.js` line 454): `trackUsage('generate/text')`. -/
def trackGenerateText : Option String → Option String → String → AppState → AppState :=
  trackUsage "generate/text" true 0

/-- The middleware instance registered on `POST /api/generate/structured`
(`server.js` line 533): `trackUsage('generate/structured')`. -/
def trackGenerateStructured : Option String → Option String → String → AppState → AppState :=
  trackUsage "generate/structured" true 0

/-- Response of `POST /api/generate/text` as distinguishable to a caller. -/
inductive TextResponse where
  | authMissingKey
  | authInvalidKey
  | authQuotaExceeded (currentUsage monthlyLimit : Nat)
  | validationError
  | pdfSuccess
  deriving DecidableEq

/-- Embeds the `POST /api/generate/text` pipeline of `server.js` (lines
451-527): `authenticateAPI`, then the `trackUsage('generate/text')`
middleware, then the handler, whose first act is the validation
`if (!text || text.trim().length === 0)` returning the 400
`Text content is required` response (`bodyText` is `req.body.text`; the
destructuring default `'Sample PDF content'` applies only when it is
absent). PDF rendering itself is external and collapsed to `pdfSuccess`. -/
def postGenerateText (st : AppState) (req : RapidHeaders)
    (bodyText : Option String) (userAgent ipAddress : Option String)
    (now : JsDate) : AppState × TextResponse :=
  match authenticateAPI st.customers req now with
  | (store1, .missingKey) =>
    ({ customers := store1, api_usage := st.api_usage }, .authMissingKey)
  | (store1, .invalidKey) =>
    ({ customers := store1, api_usage := st.api_usage }, .authInvalidKey)
  | (store1, .quotaExceeded u l) =>
    ({ customers := store1, api_usage := st.api_usage }, .authQuotaExceeded u l)
  | (store1, .ok customer _) =>
    let st1 : AppState := { customers := store1, api_usage := st.api_usage }
    let st2 := trackUsage "generate/text" true 0 userAgent ipAddress customer.api_key st1
    let text := bodyText.getD "Sample PDF content"
    if text == "" || text.trim == "" then
      (st2, .validationError)
    else
      (st2, .pdfSuccess)

end Rapid

/-! Helper lemmas about the store aggregates. -/

theorem usageOf_cons (k : String) (c : Customer) (cs : List Customer) :
    usageOf k (c :: cs)
      = (if c.api_key == k then c.current_usage else 0) + usageOf k cs := by
  by_cases h : c.api_key == k <;> simp [usageOf, List.filter_cons, h]

theorem countKey_cons (k : String) (c : Customer) (cs : List Customer) :
    countKey k (c :: cs)
      = (if c.api_key == k then 1 else 0) + countKey k cs := by
  by_cases h : c.api_key == k <;> simp [countKey, List.countP_cons, h] <;> omega

theorem usageOf_bump (k : String) (cs : List Customer) :
    usageOf k (cs.map fun c =>
      if c.api_key == k then { c with current_usage := c.current_usage + 1 } else c)
      = usageOf k cs + countKey k cs := by
  induction cs with
  | nil => rfl
  | cons c cs ih =>
    simp only [List.map_cons]
    rw [usageOf_cons, usageOf_cons, countKey_cons, ih]
    by_cases h : c.api_key == k
    · simp [h]
      omega
    · simp [h]

theorem zip_map_self {α : Type} (f : α → α) (l : List α) (p : α × α)
    (hp : p ∈ l.zip (l.map f)) : p.2 = f p.1 := by
  induction l with
  | nil => simp at hp
  | cons a l ih =>
    simp only [List.map_cons, List.zip_cons_cons, List.mem_cons] at hp
    rcases hp with h | h
    · subst h; rfl
    · exact ih h

/-! Claim theorems. -/

/-- Sample row for claim C9: an active subscriber linked to billing
reference `sub_123`. -/
def c9Customer : Customer :=
  { api_key := "live-abc", email := "a@b.com", plan := "pro",
    monthly_limit := 10000, current_usage := 7, last_reset := ⟨4, 2025⟩,
    status := "active", source := "", rapidapi_user_id := none,
    stripe_customer_id := some "cus_1", stripe_subscription_id := some "sub_123" }

/-- C9: the billing webhook's state effect and response are a function of
the parsed body alone — two requests with the same body and different (or
absent) `stripe-signature` headers produce identical store changes and
responses, since the signature is read but never verified; in particular
an unsigned request suspends the matching account exactly as a signed one
does. -/
theorem webhook_ignores_signature_header :
    (∀ (sig1 sig2 : Option String) (body : Option Direct.WebhookEvent)
        (store : List Customer),
      Direct.stripeWebhook sig1 body store = Direct.stripeWebhook sig2 body store)
    ∧ Direct.stripeWebhook none
        (some { type := "invoice.payment_failed", subscription := some "sub_123" })
        [c9Customer]
        = ([{ c9Customer with status := "suspended" }], Direct.WebhookOutcome.received)
    ∧ Direct.stripeWebhook (some "t=1,v1=bogus")
        (some { type := "invoice.payment_failed", subscription := some "sub_123" })
        [c9Customer]
        = ([{ c9Customer with status := "suspended" }], Direct.WebhookOutcome.received) :=
  ⟨fun _ _ _ _ => rfl, by decide, by decide⟩

/-- The single ledger row a run of `Direct.trackUsage` on the named
endpoint appends, defaults applied (claim C10). -/
def directEvent (endpoint k : String) : UsageEvent :=
  { api_key := k, endpoint := endpoint, success := true, file_size := 0,
    user_agent := none, ip_address := none }

/-- The single ledger row a run of `Rapid.trackUsage` on the named
endpoint appends, defaults applied (claim C10). -/
def rapidEvent (endpoint : String) (ua ip : Option String) (k : String) :
    UsageEvent :=
  { api_key := k, endpoint := endpoint, success := true, file_size := 0,
    user_agent := some (jsOrStr ua "Unknown"),
    ip_address := some (jsOrStr ip "Unknown") }

/-- C10: every `UsageEvent` the usage recorder appends carries
`success = true`: all four registered `trackUsage` instances (both
endpoints of both variants) were registered with the default arguments,
so every run appends exactly one event with `success = true`, and hence
any event of the resulting ledger is either an old event or one with
`success = true`. -/
theorem usage_events_always_success_true :
    (∀ k st, (Direct.trackGenerateText k st).api_usage
      = st.api_usage ++ [directEvent "generate/text" k])
    ∧ (∀ k st, (Direct.trackGenerateStructured k st).api_usage
      = st.api_usage ++ [directEvent "generate/structured" k])
    ∧ (∀ ua ip k st, (Rapid.trackGenerateText ua ip k st).api_usage
      = st.api_usage ++ [rapidEvent "generate/text" ua ip k])
    ∧ (∀ ua ip k st, (Rapid.trackGenerateStructured ua ip k st).api_usage
      = st.api_usage ++ [rapidEvent "generate/structured" ua ip k])
    ∧ (∀ k st e, e ∈ (Direct.trackGenerateText k st).api_usage →
        e ∈ st.api_usage ∨ e.success = true)
    ∧ (∀ ua ip k st e, e ∈ (Rapid.trackGenerateText ua ip k st).api_usage →
        e ∈ st.api_usage ∨ e.success = true) := by
  refine ⟨fun k st => rfl, fun k st => rfl, fun ua ip k st => rfl,
    fun ua ip k st => rfl, ?_, ?_⟩
  · intro k st e he
    simp only [Direct.trackGenerateText, Direct.trackUsage, List.mem_append,
      List.mem_singleton] at he
    rcases he with h | h
    · exact Or.inl h
    · subst h; exact Or.inr rfl
  · intro ua ip k st e he
    simp only [Rapid.trackGenerateText, Rapid.trackUsage, List.mem_append,
      List.mem_singleton] at he
    rcases he with h | h
    · exact Or.inl h
    · subst h; exact Or.inr rfl

/-- C3: rollover is applied exactly once per month-boundary crossing.
Same calendar month and year leave the store and the in-memory row
untouched; a differing month or year zeroes `current_usage` and stamps
`last_reset = now` on the key's rows (other rows unchanged) in one
application, after which re-applying in the same month is a no-op
(`needsReset` is false on the updated row, whatever number of months had
been skipped); and the rollover precedes the quota check: a stale row
over quota is admitted by `authenticateAPI` after its reset. -/
theorem rollover_once_per_month_crossing :
    (∀ (store : List Customer) (k : String) (c : Customer) (now : JsDate),
      now.month = c.last_reset.month → now.year = c.last_reset.year →
      rolloverStep store k c now = (store, c))
    ∧ (∀ (store : List Customer) (k : String) (c : Customer) (now : JsDate),
        needsReset now c = true →
        (∀ row ∈ (rolloverStep store k c now).1,
          (row.api_key = k → row.current_usage = 0 ∧ row.last_reset = now
            ∧ needsReset now row = false)
          ∧ (row.api_key ≠ k → row ∈ store))
        ∧ ((rolloverStep store k c now).2).current_usage = 0)
    ∧ (∀ (store : List Customer) (k : String) (c : Customer) (now : JsDate),
        k ≠ "" →
        store.find? (fun r => r.api_key == k && r.status == "active") = some c →
        needsReset now c = true → c.plan ≠ "enterprise" → 0 < c.monthly_limit →
        (Direct.authenticateAPI store (some k) none now).2
          = Direct.AuthOutcome.ok { c with current_usage := 0 }) := by
  refine ⟨?_, ?_, ?_⟩
  · intro store k c now h1 h2
    have hfalse : needsReset now c = false := by
      simp [needsReset, h1, h2]
    simp [rolloverStep, hfalse]
  · intro store k c now hreset
    constructor
    · intro row hrow
      simp only [rolloverStep, hreset, if_true] at hrow
      simp only [resetUsageUpdate, List.mem_map] at hrow
      obtain ⟨c0, hc0, hrw⟩ := hrow
      by_cases h : c0.api_key == k
      · constructor
        · intro _
          subst hrw
          simp [h, needsReset]
        · intro hne
          exfalso
          apply hne
          subst hrw
          simp [h]
          exact eq_of_beq h
      · constructor
        · intro heq
          exfalso
          subst hrw
          simp only [h, Bool.false_eq_true, if_false] at heq
          exact absurd heq (by simpa using h)
        · intro _
          subst hrw
          simpa [h] using hc0
    · simp [rolloverStep, hreset]
  · intro store k c now hk hfind hreset hplan hlim
    have hk' : (k == "") = false := by simpa using hk
    have hnot : ¬ (c.monthly_limit ≤ 0) := by omega
    simp [Direct.authenticateAPI, jsOr, jsTruthy, hk', hfind, rolloverStep,
      hreset, hplan, hnot]

/-- Sample row for the C3 witness: an active basic-plan subscriber whose
last reset was a month earlier and whose usage already exceeds the limit. -/
def c3Customer : Customer :=
  { api_key := "k3", email := "c3@x.com", plan := "basic",
    monthly_limit := 100, current_usage := 150, last_reset := ⟨3, 2025⟩,
    status := "active", source := "", rapidapi_user_id := none,
    stripe_customer_id := none, stripe_subscription_id := none }

/-- Witness for C3: the cross-month conjunct applied to a stale over-quota
row, which `authenticateAPI` resets and then admits. -/
theorem rollover_once_per_month_crossing_witness :
    (Direct.authenticateAPI [c3Customer] (some "k3") none ⟨4, 2025⟩).2
      = Direct.AuthOutcome.ok { c3Customer with current_usage := 0 } :=
  rollover_once_per_month_crossing.2.2 [c3Customer] "k3" c3Customer ⟨4, 2025⟩
    (by decide) (by decide) (by decide) (by decide) (by decide)

/-- Sample row for claim C1: an existing marketplace account, not
configured as unlimited, with `currentUsage = monthlyLimit = 5`. Its key
is the derived key of user `alice` with marketplace key `key45678`. -/
def c1Customer : Customer :=
  { api_key := "rapidapi-alice-key45678", email := "alice@rapidapi.customer",
    plan := "rapidapi", monthly_limit := 5, current_usage := 5,
    last_reset := ⟨4, 2025⟩, status := "active", source := "rapidapi",
    rapidapi_user_id := some "alice", stripe_customer_id := none,
    stripe_subscription_id := none }

/-- Request carrying the two-part marketplace signal that resolves to
`c1Customer` (claim C1). -/
def c1Request : Rapid.RapidHeaders :=
  { rapidKey := some "key45678", rapidHost := some "pdf.rapidapi.com",
    rapidUser := some "alice", headerKey := none, queryKey := none }

/-- C1 counterexample: on the marketplace authentication path of
`server.js`, an existing account of a non-unlimited plan with
`currentUsage = monthlyLimit = 5` is ADMITTED — `authorize` succeeds with
no `QuotaExceeded`, because that path performs no quota check at all, so
the claimed property does not hold on every authentication path. -/
theorem marketplace_path_admits_over_quota :
    (Rapid.authenticateAPI [c1Customer] c1Request ⟨4, 2025⟩).2
      = Rapid.AuthOutcome.ok c1Customer true
    ∧ c1Customer.monthly_limit ≤ c1Customer.current_usage
    ∧ c1Customer.plan ≠ "enterprise" := by
  decide

/-- Boundary sample for C1: `monthlyLimit = 5`, `currentUsage = 5`. -/
def c1AtLimit : Customer :=
  { api_key := "k5", email := "b5@x.com", plan := "basic",
    monthly_limit := 5, current_usage := 5, last_reset := ⟨4, 2025⟩,
    status := "active", source := "", rapidapi_user_id := none,
    stripe_customer_id := none, stripe_subscription_id := none }

/-- Boundary sample for C1: `monthlyLimit = 5`, `currentUsage = 4`. -/
def c1UnderLimit : Customer :=
  { api_key := "k4", email := "b4@x.com", plan := "basic",
    monthly_limit := 5, current_usage := 4, last_reset := ⟨4, 2025⟩,
    status := "active", source := "", rapidapi_user_id := none,
    stripe_customer_id := none, stripe_subscription_id := none }

/-- Unlimited-plan sample for C1: an `enterprise` row over its numeric
limit. -/
def c1Enterprise : Customer :=
  { api_key := "ke", email := "be@x.com", plan := "enterprise",
    monthly_limit := 5, current_usage := 9, last_reset := ⟨4, 2025⟩,
    status := "active", source := "", rapidapi_user_id := none,
    stripe_customer_id := none, stripe_subscription_id := none }

/-- C1 as amended: the claimed quota discipline holds on the
credential-lookup paths but not on the marketplace path. On the
direct-billing variant's `authenticateAPI`, success implies
`currentUsage < monthlyLimit` or the plan is the unlimited sentinel
`enterprise`, and a `QuotaExceeded` outcome implies `usage ≥ limit` on a
non-enterprise plan; the demo-key path of the marketplace variant checks
every plan the same way (no plan is configured as unlimited there);
at `monthlyLimit = 5` the gate fails at `currentUsage = 5` and succeeds
at `4`, and an over-limit `enterprise` row passes. The marketplace
header path of `server.js` skips the quota check entirely (see the
counterexample). -/
theorem quota_enforced_on_lookup_paths :
    (∀ (store st1 : List Customer) (hk qk : Option String) (now : JsDate)
        (c : Customer),
      Direct.authenticateAPI store hk qk now = (st1, Direct.AuthOutcome.ok c) →
      c.current_usage < c.monthly_limit ∨ c.plan = "enterprise")
    ∧ (∀ (store st1 : List Customer) (hk qk : Option String) (now : JsDate)
        (u l : Nat) (p : String),
      Direct.authenticateAPI store hk qk now
        = (st1, Direct.AuthOutcome.quotaExceeded u l p) →
      l ≤ u ∧ p ≠ "enterprise")
    ∧ (∀ (store st1 : List Customer) (req : Rapid.RapidHeaders) (now : JsDate)
        (c : Customer),
      Rapid.authenticateAPI store req now = (st1, Rapid.AuthOutcome.ok c false) →
      c.current_usage < c.monthly_limit)
    ∧ (∀ (store st1 : List Customer) (req : Rapid.RapidHeaders) (now : JsDate)
        (u l : Nat),
      Rapid.authenticateAPI store req now
        = (st1, Rapid.AuthOutcome.quotaExceeded u l) →
      l ≤ u)
    ∧ (Direct.authenticateAPI [c1AtLimit] (some "k5") none ⟨4, 2025⟩).2
        = Direct.AuthOutcome.quotaExceeded 5 5 "basic"
    ∧ (Direct.authenticateAPI [c1UnderLimit] (some "k4") none ⟨4, 2025⟩).2
        = Direct.AuthOutcome.ok c1UnderLimit
    ∧ (Direct.authenticateAPI [c1Enterprise] (some "ke") none ⟨4, 2025⟩).2
        = Direct.AuthOutcome.ok c1Enterprise := by
  refine ⟨?_, ?_, ?_, ?_, by decide, by decide, by decide⟩
  · intro store st1 hk qk now c h
    simp only [Direct.authenticateAPI] at h
    split at h
    · simp at h
    · split at h
      · simp at h
      · split at h
        · simp at h
        · rename_i hguard
          simp only [Prod.mk.injEq, Direct.AuthOutcome.ok.injEq] at h
          obtain ⟨-, hc⟩ := h
          rw [hc] at hguard
          push_neg at hguard
          by_cases hp : c.plan = "enterprise"
          · exact Or.inr hp
          · exact Or.inl (hguard hp)
  · intro store st1 hk qk now u l p h
    simp only [Direct.authenticateAPI] at h
    split at h
    · simp at h
    · split at h
      · simp at h
      · split at h
        · rename_i hguard
          simp only [Prod.mk.injEq,
            Direct.AuthOutcome.quotaExceeded.injEq] at h
          obtain ⟨-, rfl, rfl, rfl⟩ := h
          exact ⟨hguard.2, hguard.1⟩
        · simp at h
  · intro store st1 req now c h
    simp only [Rapid.authenticateAPI] at h
    split at h
    · split at h
      · simp at h
      · simp at h
    · split at h
      · simp at h
      · split at h
        · simp at h
        · split at h
          · simp at h
          · rename_i hguard
            simp only [Prod.mk.injEq, Rapid.AuthOutcome.ok.injEq] at h
            obtain ⟨-, rfl, -⟩ := h
            omega
  · intro store st1 req now u l h
    simp only [Rapid.authenticateAPI] at h
    split at h
    · split at h
      · simp at h
      · simp at h
    · split at h
      · simp at h
      · split at h
        · simp at h
        · split at h
          · rename_i hguard
            simp only [Prod.mk.injEq,
              Rapid.AuthOutcome.quotaExceeded.injEq] at h
            obtain ⟨-, rfl, rfl⟩ := h
            exact hguard
          · simp at h

/-- Witness for C1's amended theorem: the success post-invariant applied
to the under-limit boundary account. -/
theorem quota_enforced_on_lookup_paths_witness :
    c1UnderLimit.current_usage < c1UnderLimit.monthly_limit
    ∨ c1UnderLimit.plan = "enterprise" :=
  quota_enforced_on_lookup_paths.1 [c1UnderLimit] [c1UnderLimit]
    (some "k4") none ⟨4, 2025⟩ c1UnderLimit (by decide)

/-- Sample row for claim C4: the spec scenario's account
`{apiKey: "k1", plan: "basic", monthlyLimit: 1000, currentUsage: 999,
status: "active", lastReset: thisMonth}`. -/
def c4Customer : Customer :=
  { api_key := "k1", email := "c4@x.com", plan := "basic",
    monthly_limit := 1000, current_usage := 999, last_reset := ⟨4, 2025⟩,
    status := "active", source := "", rapidapi_user_id := none,
    stripe_customer_id := none, stripe_subscription_id := none }

/-- C4: `record` (the `trackUsage` middleware) appends exactly one
`UsageEvent` and raises the recorded key's usage by exactly one (given the
schema's UNIQUE `api_key`, i.e. the key occupies exactly one row); and the
spec scenario holds: at 999/1000 this month, `authorize("k1")` succeeds
returning the account with usage still 999, one `record` leaves usage 1000
with exactly one new ledger row, and the next `authorize("k1")` fails with
`QuotaExceeded`. -/
theorem record_increments_once_and_appends_once :
    (∀ (e : String) (s : Bool) (f : Nat) (k : String) (st : AppState),
      (Direct.trackUsage e s f k st).api_usage
        = st.api_usage ++ [⟨k, e, s, f, none, none⟩])
    ∧ (∀ (e : String) (s : Bool) (f : Nat) (k : String) (st : AppState),
        countKey k st.customers = 1 →
        usageOf k (Direct.trackUsage e s f k st).customers
          = usageOf k st.customers + 1)
    ∧ ((Direct.authenticateAPI [c4Customer] (some "k1") none ⟨4, 2025⟩).2
        = Direct.AuthOutcome.ok c4Customer
      ∧ c4Customer.current_usage = 999
      ∧ (Direct.trackUsage "generate/text" true 0 "k1"
            ⟨[c4Customer], []⟩).customers
          = [{ c4Customer with current_usage := 1000 }]
      ∧ (Direct.trackUsage "generate/text" true 0 "k1"
            ⟨[c4Customer], []⟩).api_usage
          = [⟨"k1", "generate/text", true, 0, none, none⟩]
      ∧ (Direct.authenticateAPI [{ c4Customer with current_usage := 1000 }]
            (some "k1") none ⟨4, 2025⟩).2
          = Direct.AuthOutcome.quotaExceeded 1000 1000 "basic") := by
  refine ⟨fun e s f k st => rfl, ?_, by decide⟩
  intro e s f k st hcount
  have hb := usageOf_bump k st.customers
  rw [hcount] at hb
  exact hb

/-- Witness for C4: the increment conjunct applied to the scenario store,
where `k1` occupies exactly one row. -/
theorem record_increments_once_and_appends_once_witness :
    countKey "k1" (⟨[c4Customer], []⟩ : AppState).customers = 1
    ∧ usageOf "k1" (Direct.trackUsage "generate/text" true 0 "k1"
        ⟨[c4Customer], []⟩).customers
      = usageOf "k1" (⟨[c4Customer], []⟩ : AppState).customers + 1 :=
  ⟨by decide, record_increments_once_and_appends_once.2.1
    "generate/text" true 0 "k1" ⟨[c4Customer], []⟩ (by decide)⟩

/-- C5: whenever the authorization gate passes on a protected generation
endpoint of the marketplace variant, the usage increment is applied before
the handler runs, so a request whose body fails the handler's validation
(empty `text`) still receives the 400 validation response with the
account's usage already raised by one. -/
theorem usage_counted_before_handler_failure :
    ∀ (st : AppState) (req : Rapid.RapidHeaders) (ua ip : Option String)
      (now : JsDate) (store1 : List Customer) (c : Customer) (b : Bool),
    Rapid.authenticateAPI st.customers req now = (store1, Rapid.AuthOutcome.ok c b) →
    countKey c.api_key store1 = 1 →
    (Rapid.postGenerateText st req (some "") ua ip now).2
      = Rapid.TextResponse.validationError
    ∧ usageOf c.api_key ((Rapid.postGenerateText st req (some "") ua ip now).1).customers
      = usageOf c.api_key store1 + 1 := by
  intro st req ua ip now store1 c b hauth hcount
  have hb := usageOf_bump c.api_key store1
  rw [hcount] at hb
  constructor
  · simp [Rapid.postGenerateText, hauth]
  · simp only [Rapid.postGenerateText, hauth]
    simpa [Rapid.trackUsage] using hb

/-- Sample row for the C5 witness: an active demo-key account with spare
quota. -/
def c5Customer : Customer :=
  { api_key := "kx", email := "c5@x.com", plan := "rapidapi",
    monthly_limit := 10, current_usage := 3, last_reset := ⟨4, 2025⟩,
    status := "active", source := "", rapidapi_user_id := none,
    stripe_customer_id := none, stripe_subscription_id := none }

/-- Witness for C5: a demo-key request with an empty `text` body is
rejected by validation while the usage counter has risen by one. -/
theorem usage_counted_before_handler_failure_witness :
    (Rapid.postGenerateText ⟨[c5Customer], []⟩
        ⟨none, none, none, some "kx", none⟩ (some "") none none ⟨4, 2025⟩).2
      = Rapid.TextResponse.validationError
    ∧ usageOf "kx" ((Rapid.postGenerateText ⟨[c5Customer], []⟩
        ⟨none, none, none, some "kx", none⟩ (some "") none none ⟨4, 2025⟩).1).customers
      = usageOf "kx" [c5Customer] + 1 :=
  usage_counted_before_handler_failure ⟨[c5Customer], []⟩
    ⟨none, none, none, some "kx", none⟩ none none ⟨4, 2025⟩
    [c5Customer] c5Customer false (by decide) (by decide)

/-- The account the marketplace path provisions on first contact
(claim C6): the `newCustomer` literal of `server.js` lines 107-115
together with the schema defaults `status = 'active'`,
`last_reset = CURRENT_TIMESTAMP` filled in by the INSERT. -/
def freshRapidCustomer (ru rk : String) (now : JsDate) : Customer :=
  { api_key := Rapid.customerKeyOf ru rk, email := ru ++ "@rapidapi.customer",
    plan := "rapidapi", monthly_limit := 10000, current_usage := 0,
    last_reset := now, status := "active", source := "rapidapi",
    rapidapi_user_id := some ru, stripe_customer_id := none,
    stripe_subscription_id := none }

/-- C6: in the marketplace variant, a request carrying the two-part
marketplace signal whose derived key (`rapidapi-` + user + last 8
characters of the marketplace key) matches no existing row makes
`authorize` insert a fresh account with that derived key, the default
plan `rapidapi`, default quota 10000 and `current_usage = 0`, and admit
the request with that fresh record as is — no rollover and no quota
check touch it. -/
theorem marketplace_provisioning_creates_default_account :
    ∀ (store : List Customer) (rk rh ru : String) (hk qk : Option String)
      (now : JsDate),
    rk ≠ "" → rh ≠ "" → ru ≠ "" →
    jsIncludes rh "rapidapi.com" = true →
    store.find? (fun c => c.api_key == Rapid.customerKeyOf ru rk) = none →
    Rapid.authenticateAPI store
        { rapidKey := some rk, rapidHost := some rh, rapidUser := some ru,
          headerKey := hk, queryKey := qk } now
      = (store ++ [freshRapidCustomer ru rk now],
         Rapid.AuthOutcome.ok (freshRapidCustomer ru rk now) true) := by
  intro store rk rh ru hk qk now hrk hrh hru hinc hfind
  have hrk' : (rk == "") = false := by simpa using hrk
  have hrh' : (rh == "") = false := by simpa using hrh
  have hru' : (ru == "") = false := by simpa using hru
  simp [Rapid.authenticateAPI, jsTruthy, jsOrStr, hrk', hrh', hru', hinc,
    hfind, freshRapidCustomer]

/-- Witness for C6: user `alice` with marketplace key `key45678` hitting
an empty store is provisioned and admitted. -/
theorem marketplace_provisioning_creates_default_account_witness :
    Rapid.authenticateAPI []
        { rapidKey := some "key45678", rapidHost := some "pdf.rapidapi.com",
          rapidUser := some "alice", headerKey := none, queryKey := none }
        ⟨4, 2025⟩
      = (([] : List Customer) ++ [freshRapidCustomer "alice" "key45678" ⟨4, 2025⟩],
         Rapid.AuthOutcome.ok (freshRapidCustomer "alice" "key45678" ⟨4, 2025⟩) true) :=
  marketplace_provisioning_creates_default_account [] "key45678"
    "pdf.rapidapi.com" "alice" none none ⟨4, 2025⟩
    (by decide) (by decide) (by decide) (by decide) (by decide)

/-- Sample row for claim C8: an account for `a@b.com` that is suspended,
so no ACTIVE account for that email exists. -/
def c8Suspended : Customer :=
  { api_key := "live-old", email := "a@b.com", plan := "pro",
    monthly_limit := 10000, current_usage := 0, last_reset := ⟨4, 2025⟩,
    status := "suspended", source := "", rapidapi_user_id := none,
    stripe_customer_id := some "cus_old", stripe_subscription_id := some "sub_old" }

/-- C8 counterexample: `onSubscriptionCreated` (the `/api/subscribe`
handler) fails with DuplicateEmail on a store whose only `a@b.com` row is
SUSPENDED — the duplicate check `SELECT * FROM customers WHERE email = ?`
ignores status, so the failure is not "exactly when an active account for
that email already exists". -/
theorem duplicate_email_despite_no_active_account :
    (Direct.subscribe [c8Suspended] "a@b.com" "pro" "cus_1" "sub_456" "u1"
        ⟨5, 2025⟩).2
      = Direct.SubscribeOutcome.duplicateEmail
    ∧ [c8Suspended].filter
        (fun c => c.email == "a@b.com" && c.status == "active") = []
    ∧ c8Suspended.status ≠ "active" := by
  decide

/-- The row `/api/subscribe` inserts on success (claim C8): generated key
`live-<uuid>`, the chosen plan with its quota snapshot, and the schema
defaults `current_usage = 0`, `status = 'active'`,
`last_reset = CURRENT_TIMESTAMP`. -/
def newSubscriber (email plan : String) (pl : Direct.Plan)
    (scid ssid uuid : String) (now : JsDate) : Customer :=
  { api_key := "live-" ++ uuid, email := email, plan := plan,
    monthly_limit := pl.limit, current_usage := 0, last_reset := now,
    status := "active", source := "", rapidapi_user_id := none,
    stripe_customer_id := some scid, stripe_subscription_id := some ssid }

/-- C8 as amended: for a valid plan, `onSubscriptionCreated` fails with
DuplicateEmail exactly when ANY account for that email exists, whatever
its status; when none exists it appends a new account with the generated
credential `live-<uuid>`, the plan's quota snapshot and
`status = "active"`; and a second call with the same email fails with
DuplicateEmail. -/
theorem duplicate_email_iff_any_email_row :
    (∀ (store : List Customer) (email plan scid ssid uuid : String)
        (now : JsDate) (pl : Direct.Plan),
      Direct.PLANS plan = some pl →
      ((Direct.subscribe store email plan scid ssid uuid now).2
          = Direct.SubscribeOutcome.duplicateEmail
        ↔ ∃ c ∈ store, c.email = email))
    ∧ (∀ (store : List Customer) (email plan scid ssid uuid : String)
        (now : JsDate) (pl : Direct.Plan),
      Direct.PLANS plan = some pl →
      (∀ c ∈ store, c.email ≠ email) →
      Direct.subscribe store email plan scid ssid uuid now
        = (store ++ [newSubscriber email plan pl scid ssid uuid now],
           Direct.SubscribeOutcome.created ("live-" ++ uuid)))
    ∧ (∀ (store : List Customer) (email plan scid ssid uuid : String)
        (now : JsDate) (scid2 ssid2 uuid2 : String) (now2 : JsDate)
        (pl : Direct.Plan),
      Direct.PLANS plan = some pl →
      (∀ c ∈ store, c.email ≠ email) →
      (Direct.subscribe
          (Direct.subscribe store email plan scid ssid uuid now).1
          email plan scid2 ssid2 uuid2 now2).2
        = Direct.SubscribeOutcome.duplicateEmail) := by
  have hiff : ∀ (store : List Customer) (email plan scid ssid uuid : String)
      (now : JsDate) (pl : Direct.Plan),
      Direct.PLANS plan = some pl →
      ((Direct.subscribe store email plan scid ssid uuid now).2
          = Direct.SubscribeOutcome.duplicateEmail
        ↔ ∃ c ∈ store, c.email = email) := by
    intro store email plan scid ssid uuid now pl hpl
    simp only [Direct.subscribe, hpl]
    cases hfind : store.find? (fun c => c.email == email) with
    | none =>
      simp only [hfind]
      constructor
      · intro h
        exact absurd h (by simp)
      · rintro ⟨c, hc, he⟩
        have hnc := List.find?_eq_none.mp hfind c hc
        simp [he] at hnc
    | some c =>
      simp only [hfind]
      constructor
      · intro _
        refine ⟨c, List.mem_of_find?_eq_some hfind, ?_⟩
        simpa using List.find?_some hfind
      · intro _
        trivial
  have hcreate : ∀ (store : List Customer) (email plan scid ssid uuid : String)
      (now : JsDate) (pl : Direct.Plan),
      Direct.PLANS plan = some pl →
      (∀ c ∈ store, c.email ≠ email) →
      Direct.subscribe store email plan scid ssid uuid now
        = (store ++ [newSubscriber email plan pl scid ssid uuid now],
           Direct.SubscribeOutcome.created ("live-" ++ uuid)) := by
    intro store email plan scid ssid uuid now pl hpl hall
    have hfind : store.find? (fun c => c.email == email) = none := by
      rw [List.find?_eq_none]
      intro c hc
      simpa using hall c hc
    simp only [Direct.subscribe, hpl, hfind, newSubscriber]
  refine ⟨hiff, hcreate, ?_⟩
  intro store email plan scid ssid uuid now scid2 ssid2 uuid2 now2 pl hpl hall
  rw [hcreate store email plan scid ssid uuid now pl hpl hall]
  rw [hiff _ email plan scid2 ssid2 uuid2 now2 pl hpl]
  exact ⟨newSubscriber email plan pl scid ssid uuid now,
    by simp [newSubscriber]⟩

/-- Witness for C8's amended theorem: the creation conjunct applied to the
empty store. -/
theorem duplicate_email_iff_any_email_row_witness :
    Direct.subscribe [] "a@b.com" "pro" "cus_1" "sub_456" "u1" ⟨5, 2025⟩
      = (([] : List Customer)
          ++ [newSubscriber "a@b.com" "pro" { price := 2900, limit := 10000, name := "Pro" }
              "cus_1" "sub_456" "u1" ⟨5, 2025⟩],
         Direct.SubscribeOutcome.created ("live-" ++ "u1")) :=
  duplicate_email_iff_any_email_row.2.1 [] "a@b.com" "pro" "cus_1" "sub_456"
    "u1" ⟨5, 2025⟩ { price := 2900, limit := 10000, name := "Pro" }
    (by decide) (by decide)

/-- Sample row for claim C2: a basic-plan subscriber whose account has
been suspended, quota untouched. -/
def c2Customer : Customer :=
  { api_key := "demo-basic-key-456", email := "demo@basic.com", plan := "basic",
    monthly_limit := 1000, current_usage := 0, last_reset := ⟨4, 2025⟩,
    status := "suspended", source := "", rapidapi_user_id := none,
    stripe_customer_id := none, stripe_subscription_id := none }

/-- C2 counterexample: a credential resolving to a suspended account does
NOT fail with a distinct AccountSuspended error — `authenticateAPI`
returns exactly the same `invalidKey` outcome (the 401 `Invalid API key`
response) that an entirely unknown credential receives, because the SQL
lookup filters on `status = "active"` and the error taxonomy of the code
has no suspended-specific case. -/
theorem suspended_account_reported_as_invalid_key :
    Direct.authenticateAPI [c2Customer] (some "demo-basic-key-456") none ⟨4, 2025⟩
      = ([c2Customer], Direct.AuthOutcome.invalidKey)
    ∧ Direct.authenticateAPI [] (some "demo-basic-key-456") none ⟨4, 2025⟩
      = ([], Direct.AuthOutcome.invalidKey)
    ∧ c2Customer.status ≠ "active" := by
  decide

/-- C2 as amended: whenever every row holding the presented key has
`status ≠ "active"` (in particular when the key resolves to a suspended
account), both variants' credential-lookup paths reject with the same
`invalidKey` outcome that an unknown credential receives, leaving the
store untouched; the code reports no distinct AccountSuspended error. -/
theorem suspended_account_rejected_like_unknown_key :
    ∀ (store : List Customer) (k : String) (now : JsDate),
    k ≠ "" →
    (∀ c ∈ store, c.api_key = k → c.status ≠ "active") →
    Direct.authenticateAPI store (some k) none now
      = (store, Direct.AuthOutcome.invalidKey)
    ∧ Rapid.authenticateAPI store ⟨none, none, none, some k, none⟩ now
      = (store, Rapid.AuthOutcome.invalidKey) := by
  intro store k now hk hall
  have hk' : (k == "") = false := by simpa using hk
  have hfind : store.find? (fun c => c.api_key == k && c.status == "active")
      = none := by
    rw [List.find?_eq_none]
    intro c hc
    simp only [Bool.and_eq_true, beq_iff_eq, not_and]
    intro hkey
    simpa using hall c hc hkey
  constructor
  · simp [Direct.authenticateAPI, jsOr, jsTruthy, hk', hfind]
  · simp [Rapid.authenticateAPI, jsOr, jsTruthy, hk', hfind]

/-- Witness for C2's amended theorem: the suspended sample account is
rejected as `invalidKey` by both variants. -/
theorem suspended_account_rejected_like_unknown_key_witness :
    Direct.authenticateAPI [c2Customer] (some "demo-basic-key-456") none ⟨5, 2025⟩
      = ([c2Customer], Direct.AuthOutcome.invalidKey)
    ∧ Rapid.authenticateAPI [c2Customer]
        ⟨none, none, none, some "demo-basic-key-456", none⟩ ⟨5, 2025⟩
      = ([c2Customer], Rapid.AuthOutcome.invalidKey) :=
  suspended_account_rejected_like_unknown_key [c2Customer]
    "demo-basic-key-456" ⟨5, 2025⟩ (by decide) (by decide)

/-- C7: `onPaymentFailed` sets `status = "suspended"` on every row whose
`stripe_subscription_id` matches the billing reference and
`onPaymentSucceeded` sets `status = "active"` and `current_usage = 0` on
every matching row; positionally (via `zip`), every other field of a
matching row and every non-matching row are left exactly as they were,
and both updates preserve the store's length. -/
theorem billing_webhook_frame_effects :
    ∀ (ref : String) (store : List Customer),
    (Direct.onPaymentFailed (some ref) store).length = store.length
    ∧ (Direct.onPaymentSucceeded (some ref) store).length = store.length
    ∧ (∀ p ∈ store.zip (Direct.onPaymentFailed (some ref) store),
        p.2.api_key = p.1.api_key ∧ p.2.email = p.1.email
        ∧ p.2.plan = p.1.plan ∧ p.2.monthly_limit = p.1.monthly_limit
        ∧ p.2.current_usage = p.1.current_usage
        ∧ p.2.last_reset = p.1.last_reset
        ∧ (p.1.stripe_subscription_id = some ref → p.2.status = "suspended")
        ∧ (p.1.stripe_subscription_id ≠ some ref → p.2 = p.1))
    ∧ (∀ p ∈ store.zip (Direct.onPaymentSucceeded (some ref) store),
        p.2.api_key = p.1.api_key ∧ p.2.email = p.1.email
        ∧ p.2.plan = p.1.plan ∧ p.2.monthly_limit = p.1.monthly_limit
        ∧ p.2.last_reset = p.1.last_reset
        ∧ (p.1.stripe_subscription_id = some ref →
            p.2.status = "active" ∧ p.2.current_usage = 0)
        ∧ (p.1.stripe_subscription_id ≠ some ref → p.2 = p.1)) := by
  intro ref store
  refine ⟨by simp [Direct.onPaymentFailed], by simp [Direct.onPaymentSucceeded],
    ?_, ?_⟩
  · intro p hp
    have h2 := zip_map_self _ store p hp
    by_cases h : p.1.stripe_subscription_id = some ref
    · rw [h2]
      simp [h]
    · rw [h2]
      simp [h]
  · intro p hp
    have h2 := zip_map_self _ store p hp
    by_cases h : p.1.stripe_subscription_id = some ref
    · rw [h2]
      simp [h]
    · rw [h2]
      simp [h]

/-- Sample rows for the C7 witness: a matching and a non-matching
subscriber. -/
def c7Matching : Customer :=
  { api_key := "live-m", email := "m@x.com", plan := "pro",
    monthly_limit := 10000, current_usage := 42, last_reset := ⟨4, 2025⟩,
    status := "active", source := "", rapidapi_user_id := none,
    stripe_customer_id := some "cus_m", stripe_subscription_id := some "sub_777" }

/-- Witness for C7: the `onPaymentFailed` per-row conjunct evaluated on a
two-row store at the matching row. -/
theorem billing_webhook_frame_effects_witness :
    (Direct.onPaymentFailed (some "sub_777") [c7Matching]).length
      = [c7Matching].length
    ∧ ({ c7Matching with status := "suspended" } : Customer).status
      = "suspended" :=
  ⟨(billing_webhook_frame_effects "sub_777" [c7Matching]).1,
    ((billing_webhook_frame_effects "sub_777" [c7Matching]).2.2.1
      (c7Matching, { c7Matching with status := "suspended" })
      (by decide)).2.2.2.2.2.2.1 (by decide)⟩

/-- Witness for C10: instantiating the membership conjunct at the event
just appended to an empty ledger. -/
theorem usage_events_always_success_true_witness :
    directEvent "generate/text" "k" ∈ (⟨[], []⟩ : AppState).api_usage
    ∨ (directEvent "generate/text" "k").success = true :=
  usage_events_always_success_true.2.2.2.2.1 "k" ⟨[], []⟩
    (directEvent "generate/text" "k") (by decide)

end PdfApi
